import Mathlib

/-
Verification development for the AR-Infused Hotel Universe backend
(src/main.py, src/schemas.py).

The endpoints with decision logic — the booking quote calculator
(`booking_quote`, main.py lines 218-245), the concierge dish filter
(`concierge`, lines 180-205) and the seed-if-empty endpoints
(`seed_rooms` etc., lines 52-147) — are embedded as pure Lean functions.
Dates follow Python's `datetime`: the proleptic Gregorian calendar with
`toordinal` day numbers (0001-01-01 has ordinal 1) and
`weekday = (toordinal + 6) % 7` in a Monday = 0 scheme.  Money is
modelled in ℚ; every value this program rounds to 2 decimal places is
an exact multiple of 1/100, so the tie-breaking mode of Python's
`round` never matters here.
-/

namespace Hotel

/-- Leap-year test of the proleptic Gregorian calendar, as used by
Python's `datetime.date`. -/
def isLeap (y : Nat) : Bool :=
  (y % 4 == 0 && y % 100 != 0) || y % 400 == 0

/-- Number of days in month `m` of year `y` (months are 1-based). -/
def daysInMonth (y m : Nat) : Nat :=
  if m == 2 then (if isLeap y then 29 else 28)
  else if m == 4 || m == 6 || m == 9 || m == 11 then 30
  else 31

/-- A calendar date, as produced by `datetime.fromisoformat` on a
date-only ISO-8601 string. -/
structure Date where
  year : Nat
  month : Nat
  day : Nat
deriving DecidableEq

/-- Validity of a calendar date (what `datetime` accepts). -/
def Date.valid (d : Date) : Bool :=
  1 ≤ d.year && 1 ≤ d.month && d.month ≤ 12 &&
    1 ≤ d.day && d.day ≤ daysInMonth d.year d.month

/-- Days in the months of year `y` strictly before month `m`. -/
def daysBeforeMonth (y m : Nat) : Nat :=
  (List.range (m - 1)).foldl (fun acc i => acc + daysInMonth y (i + 1)) 0

/-- Python's `date.toordinal`: day number in the proleptic Gregorian
calendar, with 0001-01-01 mapped to 1. -/
def toordinal (d : Date) : Nat :=
  let y := d.year - 1
  365 * y + y / 4 - y / 100 + y / 400 + daysBeforeMonth d.year d.month + d.day

/-- Python's `date.weekday`: Monday = 0 … Sunday = 6. -/
def weekday (d : Date) : Nat :=
  (toordinal d + 6) % 7

/-- Parse a non-empty all-digit character list as a natural number. -/
def parseNatDigits (cs : List Char) : Option Nat :=
  if cs.isEmpty then none
  else if cs.all Char.isDigit then
    some (cs.foldl (fun acc c => acc * 10 + (c.toNat - 48)) 0)
  else none

/-- Split a character list on a separator character (the splitting
`"YYYY-MM-DD"` undergoes inside `fromisoformat`). -/
def splitOnChar (sep : Char) : List Char → List (List Char)
  | [] => [[]]
  | c :: cs =>
    match splitOnChar sep cs, c == sep with
    | rest, true => [] :: rest
    | [], false => [[c]]
    | r :: rs, false => (c :: r) :: rs

/-- Embedding of `datetime.fromisoformat` on its date-only subset
`YYYY-MM-DD` (the format the spec requires; a parse failure models a
`ValueError`).  Returns `none` exactly when the string is not a valid
calendar date in that format. -/
def parseDate (s : String) : Option Date :=
  match splitOnChar '-' s.data with
  | [ys, ms, ds] =>
    if ys.length == 4 && ms.length == 2 && ds.length == 2 then
      match parseNatDigits ys, parseNatDigits ms, parseNatDigits ds with
      | some y, some m, some d =>
        if Date.valid ⟨y, m, d⟩ then some ⟨y, m, d⟩ else none
      | _, _, _ => none
    else none
  | _ => none

/-- Round a rational to 2 decimal places (`round(x, 2)` in main.py; on
the exact multiples of 1/100 produced by this program it is the
identity, so the float tie-breaking mode is immaterial). -/
def round2 (q : ℚ) : ℚ :=
  (⌊q * 100 + 1 / 2⌋ : ℚ) / 100

/-- The fixed base nightly rate of main.py line 228. -/
def base_rate : ℚ := 500

/-- Weekend boost of main.py line 232: `1.1 if d1.weekday() >= 4 else 1.0`. -/
def weekend_boost (d1 : Date) : ℚ :=
  if 4 ≤ weekday d1 then 11 / 10 else 1

/-- Addon price table of main.py lines 235-239. -/
def addon_map : List (String × ℚ) :=
  [("flowers", 60), ("wine", 120), ("candlelight", 200)]

/-- `addon_map.get(a, 50)` of main.py line 240. -/
def addonPrice (a : String) : ℚ :=
  match addon_map.lookup a with
  | some p => p
  | none => 50

/-- The quote error taxonomy: unparseable dates raise `ValueError`
inside `datetime.fromisoformat`, the spec's `InvalidDateFormat`. -/
inductive QuoteError where
  | invalidDateFormat
deriving DecidableEq

/-- `BookingRequest` of schemas.py lines 43-48 (`QuoteRequest` in
main.py is a bare alias of it). -/
structure QuoteRequest where
  room_id : Option String := none
  check_in : String
  check_out : String
  guests : Nat := 1
  addons : List String := []
deriving DecidableEq

/-- `QuoteResponse` of main.py lines 211-216; the addon dicts
`{"name": a, "price": p}` are modelled as pairs. -/
structure QuoteResponse where
  nightly_rate : ℚ
  nights : Int
  addons : List (String × ℚ)
  total : ℚ
  suggestion : Option String
deriving DecidableEq

/-- The quote computation of main.py lines 226-245 once both dates have
parsed to `d1` and `d2`.  Lines 229-230 bind `room` to `None` behind an
`if False` guard and never use it, so the stored room price plays no
part. -/
def quoteOf (d1 d2 : Date) (reqAddons : List String) : QuoteResponse :=
  let nights : Int := max 1 ((toordinal d2 : Int) - (toordinal d1 : Int))
  let nightly_rate : ℚ := round2 (base_rate * weekend_boost d1)
  let addons : List (String × ℚ) := reqAddons.map (fun a => (a, addonPrice a))
  let total : ℚ := round2 (nightly_rate * (nights : ℚ) + (addons.map Prod.snd).sum)
  { nightly_rate := nightly_rate
    nights := nights
    addons := addons
    total := total
    suggestion :=
      if weekday d1 = 5 then some "Consider arriving Sunday night for better rates"
      else none }

/-- Embedding of the `booking_quote` endpoint (main.py lines 218-245),
with the database-availability gate factored out: parse both dates,
fail with `InvalidDateFormat` if either does not parse, otherwise
compute the quote. -/
def booking_quote (req : QuoteRequest) : Except QuoteError QuoteResponse :=
  match parseDate req.check_in, parseDate req.check_out with
  | some d1, some d2 => Except.ok (quoteOf d1 d2 req.addons)
  | _, _ => Except.error QuoteError.invalidDateFormat

/-- A stored dish document as the concierge reads it back from the
store (main.py line 185).  Only the fields the filter touches are kept;
`allergens = none` models a document that lacks the field entirely, so
that `d.get("allergens", [])` yields the empty list. -/
structure DishDoc where
  name : String
  allergens : Option (List String) := none
deriving DecidableEq

/-- Python's `d.get("allergens", [])` of main.py line 192. -/
def dishAllergens (d : DishDoc) : List String :=
  d.allergens.getD []

/-- ASCII lowercasing of one character, as `str.lower` acts on the
ASCII allergen and dietary strings this program compares. -/
def lowerChar (c : Char) : Char :=
  if 65 ≤ c.toNat && c.toNat ≤ 90 then Char.ofNat (c.toNat + 32) else c

/-- Embedding of Python's `str.lower` on the ASCII strings involved. -/
def lower (s : String) : String :=
  ⟨s.data.map lowerChar⟩

/-- The dish-selection logic of `concierge` (main.py lines 188-195):
with a truthy `dietary` list, keep each dish none of whose allergens,
lowercased, is in the lowercased dietary set; otherwise take the first
3 dishes in stored order. -/
def suggestedDishes (menu : List DishDoc) (dietary : Option (List String)) : List DishDoc :=
  let diet := dietary.getD []
  if diet.isEmpty then menu.take 3
  else
    let avoid := diet.map lower
    menu.filter (fun d => !((dishAllergens d).any (fun a => avoid.contains (lower a))))

/-- `Room` of schemas.py lines 10-17. -/
structure Room where
  name : String
  description : Option String := none
  price_per_night : ℚ
  view : Option String := none
  capacity : Nat := 2
  features : List String := []
  images : List String := []
deriving DecidableEq

/-- The fixture list of `seed_rooms` (main.py lines 59-78). -/
def roomFixtures : List Room :=
  [{ name := "Sky Suite"
     description := some "Penthouse with panoramic skyline views and holographic ambient lighting."
     price_per_night := 899
     view := some "city"
     capacity := 2
     features := ["holographic desk", "smart glass walls", "immersive audio"]
     images := ["/images/rooms/sky-suite-1.jpg"] },
   { name := "Ocean Nebula"
     description := some "Futuristic ocean-facing room with neon wave lighting and AR balcony guide."
     price_per_night := 659
     view := some "ocean"
     capacity := 3
     features := ["neon wave lights", "ar balcony guide", "ai butler"]
     images := ["/images/rooms/ocean-nebula-1.jpg"] }]

/-- Embedding of the `seed_rooms` endpoint (main.py lines 52-83) over
an explicit collection state: count the existing documents, return 0
and write nothing if any exist, otherwise insert the fixture list one
by one and return how many were inserted.  The result is the new
collection state paired with the reported `inserted` count. -/
def seed_rooms (coll : List Room) : List Room × Nat :=
  if 0 < coll.length then (coll, 0)
  else (coll ++ roomFixtures, roomFixtures.length)

/-- Spec-side reading of the dish filter: a dish passes when its
allergens list contains none of the dietary terms, compared
case-insensitively. -/
def specDishAllowed (dietary : List String) (d : DishDoc) : Bool :=
  (dishAllergens d).all fun a => dietary.all fun t => !(lower a == lower t)

/- Helper lemmas. -/

lemma round2_intCast (n : ℤ) : round2 (n : ℚ) = n := by
  unfold round2
  have h : ⌊(n : ℚ) * 100 + 1 / 2⌋ = 100 * n := by
    rw [Int.floor_eq_iff]
    constructor
    · push_cast
      nlinarith
    · push_cast
      nlinarith
  rw [h]
  push_cast
  ring

lemma quoteOf_nights (d1 d2 : Date) (as : List String) :
    (quoteOf d1 d2 as).nights = max 1 ((toordinal d2 : ℤ) - (toordinal d1 : ℤ)) := rfl

lemma quoteOf_nightly_rate (d1 d2 : Date) (as : List String) :
    (quoteOf d1 d2 as).nightly_rate = round2 (base_rate * weekend_boost d1) := rfl

lemma quoteOf_addons (d1 d2 : Date) (as : List String) :
    (quoteOf d1 d2 as).addons = as.map (fun a => (a, addonPrice a)) := rfl

lemma quoteOf_total (d1 d2 : Date) (as : List String) :
    (quoteOf d1 d2 as).total =
      round2 ((quoteOf d1 d2 as).nightly_rate * ((quoteOf d1 d2 as).nights : ℚ) +
        ((quoteOf d1 d2 as).addons.map Prod.snd).sum) := rfl

lemma quoteOf_suggestion (d1 d2 : Date) (as : List String) :
    (quoteOf d1 d2 as).suggestion =
      if weekday d1 = 5 then some "Consider arriving Sunday night for better rates"
      else none := rfl

lemma booking_quote_eq_ok (req : QuoteRequest) (d1 d2 : Date)
    (h1 : parseDate req.check_in = some d1) (h2 : parseDate req.check_out = some d2) :
    booking_quote req = Except.ok (quoteOf d1 d2 req.addons) := by
  unfold booking_quote
  rw [h1, h2]

lemma booking_quote_ok_inv (req : QuoteRequest) (resp : QuoteResponse)
    (h : booking_quote req = Except.ok resp) :
    ∃ d1 d2, parseDate req.check_in = some d1 ∧ parseDate req.check_out = some d2 ∧
      resp = quoteOf d1 d2 req.addons := by
  unfold booking_quote at h
  cases hc : parseDate req.check_in <;> cases ho : parseDate req.check_out <;>
    rw [hc, ho] at h <;> simp only [reduceCtorEq] at h
  exact ⟨_, _, rfl, rfl, (Except.ok.injEq _ _).mp h.symm⟩

lemma rate_of_weekend (d1 : Date) (h : 4 ≤ weekday d1) :
    round2 (base_rate * weekend_boost d1) = 550 := by
  unfold base_rate weekend_boost
  rw [if_pos h, show (500 : ℚ) * (11 / 10) = ((550 : ℤ) : ℚ) by norm_num,
    round2_intCast]
  norm_num

lemma rate_of_weekday (d1 : Date) (h : weekday d1 < 4) :
    round2 (base_rate * weekend_boost d1) = 500 := by
  unfold base_rate weekend_boost
  rw [if_neg (by omega), show (500 : ℚ) * 1 = ((500 : ℤ) : ℚ) by norm_num,
    round2_intCast]
  norm_num

/-- C1: the claim states check-in on Friday or Saturday gives
nightly_rate 550.00 and every other weekday, Sunday included, gives
500.00.  The code's test is `weekday >= 4`, which also matches Sunday
(index 6): check-in 2024-01-07 is a Sunday, yet the returned
nightly_rate is 550, not 500. -/
theorem C1_counterexample :
    weekday ⟨2024, 1, 7⟩ = 6 ∧
    (booking_quote { check_in := "2024-01-07", check_out := "2024-01-08" }).toOption.map
        QuoteResponse.nightly_rate = some 550 ∧
    (550 : ℚ) ≠ 500 := by
  refine ⟨by decide, ?_, by norm_num⟩
  have h : booking_quote { check_in := "2024-01-07", check_out := "2024-01-08" } =
      Except.ok (quoteOf ⟨2024, 1, 7⟩ ⟨2024, 1, 8⟩ []) := rfl
  rw [h]
  show some (quoteOf ⟨2024, 1, 7⟩ ⟨2024, 1, 8⟩ []).nightly_rate = some 550
  rw [quoteOf_nightly_rate, rate_of_weekend _ (by decide)]

/-- C1 (amended): for every booking quote with parseable dates, if the
check-in weekday index is at least 4 (Friday, Saturday or Sunday in the
Monday = 0 scheme) the returned nightly_rate is 550.00, and for
Monday through Thursday it is 500.00. -/
theorem C1_weekend_surcharge (req : QuoteRequest) (d1 : Date) (resp : QuoteResponse)
    (h1 : parseDate req.check_in = some d1)
    (hok : booking_quote req = Except.ok resp) :
    (4 ≤ weekday d1 → resp.nightly_rate = 550) ∧
    (weekday d1 < 4 → resp.nightly_rate = 500) := by
  obtain ⟨e1, e2, hp1, hp2, hresp⟩ := booking_quote_ok_inv req resp hok
  rw [h1, Option.some.injEq] at hp1
  subst hp1
  subst hresp
  rw [quoteOf_nightly_rate]
  exact ⟨rate_of_weekend d1, rate_of_weekday d1⟩

/-- Witness for C1: check-in 2024-01-05 is a Friday and the quote's
nightly_rate evaluates to 550. -/
theorem C1_weekend_surcharge_witness :
    4 ≤ weekday ⟨2024, 1, 5⟩ ∧
    (quoteOf ⟨2024, 1, 5⟩ ⟨2024, 1, 7⟩ []).nightly_rate = 550 := by
  refine ⟨by decide, ?_⟩
  have h := C1_weekend_surcharge { check_in := "2024-01-05", check_out := "2024-01-07" }
    ⟨2024, 1, 5⟩ (quoteOf ⟨2024, 1, 5⟩ ⟨2024, 1, 7⟩ []) (by decide) rfl
  exact h.1 (by decide)

/-- C2: the quote fails with InvalidDateFormat exactly when check_in or
check_out does not parse as a date, and InvalidDateFormat is the only
failure the quote computation produces. -/
theorem C2_invalid_date_format (req : QuoteRequest) :
    (booking_quote req = Except.error QuoteError.invalidDateFormat ↔
      parseDate req.check_in = none ∨ parseDate req.check_out = none) ∧
    (∀ e, booking_quote req = Except.error e → e = QuoteError.invalidDateFormat) := by
  constructor
  · cases hc : parseDate req.check_in <;> cases ho : parseDate req.check_out <;>
      simp [booking_quote, hc, ho]
  · intro e _
    cases e
    rfl

/-- Witness for C2: an unparseable check_in makes the quote fail with
InvalidDateFormat. -/
theorem C2_invalid_date_format_witness :
    booking_quote { check_in := "not-a-date", check_out := "2024-01-05" } =
      Except.error QuoteError.invalidDateFormat := by
  exact (C2_invalid_date_format _).1.mpr (Or.inl (by decide))

/-- C3: for every booking quote with parseable dates, nights equals
max 1 (whole-day difference of check_out and check_in); hence nights is
at least 1, and when the day difference is at least 1, nights equals
it. -/
theorem C3_nights_floor (req : QuoteRequest) (d1 d2 : Date) (resp : QuoteResponse)
    (h1 : parseDate req.check_in = some d1) (h2 : parseDate req.check_out = some d2)
    (hok : booking_quote req = Except.ok resp) :
    resp.nights = max 1 ((toordinal d2 : ℤ) - (toordinal d1 : ℤ)) ∧
    1 ≤ resp.nights ∧
    (1 ≤ (toordinal d2 : ℤ) - (toordinal d1 : ℤ) →
      resp.nights = (toordinal d2 : ℤ) - (toordinal d1 : ℤ)) := by
  rw [booking_quote_eq_ok req d1 d2 h1 h2] at hok
  have hr : quoteOf d1 d2 req.addons = resp := (Except.ok.injEq _ _).mp hok
  subst hr
  rw [quoteOf_nights]
  exact ⟨rfl, le_max_left _ _, fun h => max_eq_right h⟩

/-- Witness for C3: the inverted booking 2024-01-07 to 2024-01-05
still yields nights = 1, and 2024-01-05 to 2024-01-07 yields 2. -/
theorem C3_nights_floor_witness :
    (quoteOf ⟨2024, 1, 7⟩ ⟨2024, 1, 5⟩ []).nights = max 1 (-2) := by
  have h := C3_nights_floor { check_in := "2024-01-07", check_out := "2024-01-05" }
    ⟨2024, 1, 7⟩ ⟨2024, 1, 5⟩ (quoteOf ⟨2024, 1, 7⟩ ⟨2024, 1, 5⟩ [])
    (by decide) (by decide) rfl
  rw [h.1]
  norm_num [toordinal, daysBeforeMonth, List.range]

lemma dish_filter_eq_spec (dietary : List String) (d : DishDoc) :
    (!((dishAllergens d).any fun a => (dietary.map lower).contains (lower a))) =
      specDishAllowed dietary d := by
  unfold specDishAllowed
  rw [Bool.eq_iff_iff]
  simp only [List.elem_eq_mem, List.mem_map, Bool.not_eq_eq_eq_not, Bool.not_true,
    List.any_eq_false, decide_eq_true_eq, not_exists, not_and, List.all_eq_true,
    beq_eq_false_iff_ne, ne_eq]
  constructor <;> intro h a ha t ht <;> exact fun he => h a ha t ht he.symm

/-- C4: with a non-empty dietary list, the concierge suggests exactly
the dishes none of whose allergens matches a dietary term
case-insensitively, uncapped; with dietary empty or absent, it suggests
exactly the first 3 dishes in stored order. -/
theorem C4_concierge_dishes (menu : List DishDoc) (dietary : List String) :
    (dietary ≠ [] →
      suggestedDishes menu (some dietary) = menu.filter (specDishAllowed dietary)) ∧
    suggestedDishes menu (some []) = menu.take 3 ∧
    suggestedDishes menu none = menu.take 3 := by
  refine ⟨fun hne => ?_, rfl, rfl⟩
  unfold suggestedDishes
  rw [Option.getD_some, if_neg (by simpa using hne)]
  exact List.filter_congr fun d _ => dish_filter_eq_spec dietary d

/-- Witness for C4: with dietary = ["fish"], the fish dish from the
seed fixtures is excluded and the dairy dish kept; with no dietary
preference, the first 3 dishes are returned in order. -/
theorem C4_concierge_dishes_witness :
    suggestedDishes
        [{ name := "Galactic Nigiri", allergens := some ["fish", "soy"] },
         { name := "Quantum Mousse", allergens := some ["dairy"] }] (some ["fish"]) =
      [{ name := "Quantum Mousse", allergens := some ["dairy"] }] ∧
    suggestedDishes
        [{ name := "Galactic Nigiri", allergens := some ["fish", "soy"] },
         { name := "Quantum Mousse", allergens := some ["dairy"] }] none =
      [{ name := "Galactic Nigiri", allergens := some ["fish", "soy"] },
       { name := "Quantum Mousse", allergens := some ["dairy"] }] := by
  have h := C4_concierge_dishes
    [{ name := "Galactic Nigiri", allergens := some ["fish", "soy"] },
     { name := "Quantum Mousse", allergens := some ["dairy"] }] ["fish"]
  refine ⟨?_, h.2.2⟩
  rw [h.1 (by decide)]
  decide

/-- C5: every addon name is priced by the fixed table flowers→60,
wine→120, candlelight→200 with default 50 for unrecognized names, the
response lists the request's addons in order without deduplication, and
a request with addons = ["wine", "wine"] is charged 240 in addons. -/
theorem C5_addon_pricing (req : QuoteRequest) (resp : QuoteResponse)
    (hok : booking_quote req = Except.ok resp) :
    resp.addons = req.addons.map (fun a => (a, addonPrice a)) ∧
    addonPrice "flowers" = 60 ∧ addonPrice "wine" = 120 ∧ addonPrice "candlelight" = 200 ∧
    (∀ a : String, a ∉ ["flowers", "wine", "candlelight"] → addonPrice a = 50) ∧
    (∀ d1 d2 : Date, ((quoteOf d1 d2 ["wine", "wine"]).addons.map Prod.snd).sum = 240) := by
  obtain ⟨d1, d2, hp1, hp2, hresp⟩ := booking_quote_ok_inv req resp hok
  subst hresp
  refine ⟨quoteOf_addons d1 d2 req.addons, rfl, rfl, rfl, ?_, ?_⟩
  · intro a ha
    simp only [List.mem_cons, List.not_mem_nil, or_false, not_or] at ha
    obtain ⟨hf, hw, hc⟩ := ha
    have f1 : (a == "flowers") = false := beq_eq_false_iff_ne.mpr hf
    have f2 : (a == "wine") = false := beq_eq_false_iff_ne.mpr hw
    have f3 : (a == "candlelight") = false := beq_eq_false_iff_ne.mpr hc
    simp [addonPrice, addon_map, List.lookup, f1, f2, f3]
  · intro e1 e2
    rw [quoteOf_addons]
    show ((120 : ℚ) + (120 + 0)) = 240
    norm_num

/-- Witness for C5: the double-wine quote prices each wine at 120 for
an addon total of 240, with the addon list kept in request order. -/
theorem C5_addon_pricing_witness :
    (quoteOf ⟨2024, 1, 1⟩ ⟨2024, 1, 2⟩ ["wine", "wine"]).addons =
      [("wine", (120 : ℚ)), ("wine", 120)] ∧
    ((quoteOf ⟨2024, 1, 1⟩ ⟨2024, 1, 2⟩ ["wine", "wine"]).addons.map Prod.snd).sum = 240 := by
  have h := C5_addon_pricing
    { check_in := "2024-01-01", check_out := "2024-01-02", addons := ["wine", "wine"] }
    (quoteOf ⟨2024, 1, 1⟩ ⟨2024, 1, 2⟩ ["wine", "wine"]) rfl
  exact ⟨h.1, h.2.2.2.2.2 ⟨2024, 1, 1⟩ ⟨2024, 1, 2⟩⟩

lemma quoteResponseExt (a b : QuoteResponse) (h1 : a.nightly_rate = b.nightly_rate)
    (h2 : a.nights = b.nights) (h3 : a.addons = b.addons) (h4 : a.total = b.total)
    (h5 : a.suggestion = b.suggestion) : a = b := by
  cases a
  cases b
  simp_all

lemma quoteOf_example :
    quoteOf ⟨2024, 1, 5⟩ ⟨2024, 1, 7⟩ ["candlelight"] =
      { nightly_rate := 550, nights := 2, addons := [("candlelight", 200)],
        total := 1300, suggestion := none } := by
  apply quoteResponseExt
  · rw [quoteOf_nightly_rate, rate_of_weekend _ (by decide)]
  · rw [quoteOf_nights]
    decide
  · rw [quoteOf_addons]
    rfl
  · rw [quoteOf_total, quoteOf_nightly_rate, quoteOf_nights, quoteOf_addons,
      rate_of_weekend _ (by decide),
      show (max 1 ((toordinal ⟨2024, 1, 7⟩ : ℤ) - (toordinal ⟨2024, 1, 5⟩ : ℤ))) = (2 : ℤ)
        by decide]
    simp only [List.map_cons, List.map_nil, List.sum_cons, List.sum_nil]
    rw [show addonPrice "candlelight" = (200 : ℚ) from rfl,
      show ((550 : ℚ) * ((2 : ℤ) : ℚ) + (200 + 0)) = ((1300 : ℤ) : ℚ) by push_cast; ring,
      round2_intCast]
    norm_num
  · rw [quoteOf_suggestion, if_neg (by decide)]

/-- C6: the quote's total is nightly_rate times nights plus the sum of
the addon prices, rounded to 2 decimal places; on the example request
check_in 2024-01-05, check_out 2024-01-07, addons = ["candlelight"],
the quote is nights 2, nightly_rate 550, total 1300 and no
suggestion. -/
theorem C6_total_formula (req : QuoteRequest) (d1 d2 : Date) (resp : QuoteResponse)
    (h1 : parseDate req.check_in = some d1) (h2 : parseDate req.check_out = some d2)
    (hok : booking_quote req = Except.ok resp) :
    resp.total =
      round2 (resp.nightly_rate * (resp.nights : ℚ) + (resp.addons.map Prod.snd).sum) ∧
    booking_quote { check_in := "2024-01-05", check_out := "2024-01-07", addons := ["candlelight"] } =
      Except.ok { nightly_rate := 550, nights := 2, addons := [("candlelight", 200)], total := 1300, suggestion := none } := by
  constructor
  · rw [booking_quote_eq_ok req d1 d2 h1 h2] at hok
    have hr : quoteOf d1 d2 req.addons = resp := (Except.ok.injEq _ _).mp hok
    subst hr
    exact quoteOf_total d1 d2 req.addons
  · rw [show booking_quote { check_in := "2024-01-05", check_out := "2024-01-07", addons := ["candlelight"] } = Except.ok (quoteOf ⟨2024, 1, 5⟩ ⟨2024, 1, 7⟩ ["candlelight"]) from rfl,
      quoteOf_example]

/-- Witness for C6: the example quote evaluates exactly as the claim
states. -/
theorem C6_total_formula_witness :
    booking_quote { check_in := "2024-01-05", check_out := "2024-01-07", addons := ["candlelight"] } =
      Except.ok { nightly_rate := 550, nights := 2, addons := [("candlelight", 200)], total := 1300, suggestion := none } :=
  (C6_total_formula
    { check_in := "2024-01-05", check_out := "2024-01-07", addons := ["candlelight"] }
    ⟨2024, 1, 5⟩ ⟨2024, 1, 7⟩ (quoteOf ⟨2024, 1, 5⟩ ⟨2024, 1, 7⟩ ["candlelight"])
    (by decide) (by decide) rfl).2

/-- C7: the quote carries the fixed Sunday-arrival suggestion exactly
when the check-in date is a Saturday (weekday index 5), and no
suggestion on every other weekday. -/
theorem C7_saturday_suggestion (req : QuoteRequest) (d1 d2 : Date) (resp : QuoteResponse)
    (h1 : parseDate req.check_in = some d1) (h2 : parseDate req.check_out = some d2)
    (hok : booking_quote req = Except.ok resp) :
    (weekday d1 = 5 →
      resp.suggestion = some "Consider arriving Sunday night for better rates") ∧
    (weekday d1 ≠ 5 → resp.suggestion = none) := by
  rw [booking_quote_eq_ok req d1 d2 h1 h2] at hok
  have hr : quoteOf d1 d2 req.addons = resp := (Except.ok.injEq _ _).mp hok
  subst hr
  rw [quoteOf_suggestion]
  exact ⟨fun h => if_pos h, fun h => if_neg h⟩

/-- Witness for C7: 2024-01-06 is a Saturday and its quote carries the
Sunday-arrival suggestion. -/
theorem C7_saturday_suggestion_witness :
    weekday ⟨2024, 1, 6⟩ = 5 ∧
    (quoteOf ⟨2024, 1, 6⟩ ⟨2024, 1, 7⟩ []).suggestion =
      some "Consider arriving Sunday night for better rates" := by
  refine ⟨by decide, ?_⟩
  exact (C7_saturday_suggestion { check_in := "2024-01-06", check_out := "2024-01-07" }
    ⟨2024, 1, 6⟩ ⟨2024, 1, 7⟩ (quoteOf ⟨2024, 1, 6⟩ ⟨2024, 1, 7⟩ [])
    (by decide) (by decide) rfl).1 (by decide)

/-- C8: seeding a non-empty collection reports 0 insertions and leaves
it unchanged; seeding an empty collection inserts exactly the fixture
list and reports its length; hence a second seed call inserts nothing
and changes nothing. -/
theorem C8_seed_if_empty (coll : List Room) :
    (0 < coll.length → seed_rooms coll = (coll, 0)) ∧
    (coll.length = 0 → seed_rooms coll = (coll ++ roomFixtures, roomFixtures.length)) ∧
    (seed_rooms (seed_rooms coll).1).1 = (seed_rooms coll).1 ∧
    (seed_rooms (seed_rooms coll).1).2 = 0 := by
  cases coll <;> simp [seed_rooms, roomFixtures]

/-- Witness for C8: seeding from empty inserts the 2 fixture rooms, and
seeding the resulting collection inserts nothing and keeps it as is. -/
theorem C8_seed_if_empty_witness :
    seed_rooms [] = (roomFixtures, 2) ∧ seed_rooms roomFixtures = (roomFixtures, 0) := by
  have h := C8_seed_if_empty []
  have h1 : seed_rooms [] = (roomFixtures, 2) := by simpa using h.2.1 rfl
  have h2 := h.2.2
  rw [h1] at h2
  exact ⟨h1, Prod.ext h2.1 h2.2⟩

/-- C9: the quote response is identical for two requests that differ
only in room_id (present or absent), and the base nightly rate is the
fixed constant 500, never a stored room price. -/
theorem C9_room_id_unused (r1 r2 : Option String) (ci co : String) (g : Nat)
    (ad : List String) :
    booking_quote { room_id := r1, check_in := ci, check_out := co, guests := g, addons := ad } =
      booking_quote { room_id := r2, check_in := ci, check_out := co, guests := g, addons := ad } ∧
    base_rate = 500 :=
  ⟨rfl, rfl⟩

/-- C10: with a non-empty dietary list, a stored dish lacking an
allergens field is treated as having no allergens and is always among
the suggested dishes. -/
theorem C10_missing_allergens_included (menu : List DishDoc) (dietary : List String)
    (d : DishDoc) (hall : d.allergens = none) (hmem : d ∈ menu) (hne : dietary ≠ []) :
    d ∈ suggestedDishes menu (some dietary) := by
  unfold suggestedDishes
  rw [Option.getD_some, if_neg (by simpa using hne)]
  refine List.mem_filter.mpr ⟨hmem, ?_⟩
  simp [dishAllergens, hall]

/-- Witness for C10: a dish document without an allergens field
survives the dietary = ["fish"] filter. -/
theorem C10_missing_allergens_included_witness :
    ({ name := "Mystery Dish" } : DishDoc) ∈
      suggestedDishes [{ name := "Mystery Dish" }] (some ["fish"]) :=
  C10_missing_allergens_included [{ name := "Mystery Dish" }] ["fish"]
    { name := "Mystery Dish" } rfl (List.mem_singleton.mpr rfl) (by decide)

end Hotel
